import Mathlib

/-!
Shallow embedding of `src/coscale.py` (CoScale salt plugin).

The module performs a three-step HTTP exchange: login, create event, push
event data, with a single re-login-and-retry on a 401 response at the
create and push steps.  Network interaction is modelled by an oracle that
maps the position of a request (0-based, in issue order) to the response
the server gives; every function threads the list of requests issued so
far, so that theorems can speak about how many calls were made and with
which urls, form payloads and headers.

Python exceptions: the only exception the module raises and catches is
`AttributeError` (raised by `_login` on a non-200 response, and raised by
the interpreter for `None.status_code` when the `err` variable is `None`
at the `err.status_code not in [401, None]` checks).  It is modelled by
`Except PyExc`.  `json.loads(req.text)["token"]` / `["id"]` are modelled
by oracle-supplied fields of the response: a body whose parsing would fail
raises an uncaught `ValueError`/`KeyError` in Python, which is outside
every behaviour the claims are about.
-/

namespace Coscale

/-- HTTP response as the module sees it: status code, raw body text, and
the two JSON fields the module extracts from bodies it parses
(`json.loads(text)["token"]` for login, `json.loads(text)["id"]` for
create).  The oracle supplies the parsed fields directly. -/
structure Response where
  status_code : Nat
  text : String
  token : String
  id : Int
deriving DecidableEq

/-- A form field value (`requests` form-encodes strings and integers). -/
inductive FormValue where
  | str (s : String)
  | int (i : Int)
deriving DecidableEq

/-- One outgoing POST request: url, form data and headers, exactly the
arguments given to `requests.post`. -/
structure Request where
  url : String
  data : List (String × FormValue)
  headers : List (String × String)
deriving DecidableEq

/-- The network oracle: the response to the n-th request issued (0-based). -/
def Oracle := Nat → Response

/-- `requests.post(url, data=data, headers=headers, timeout=1)`: appends
the request to the trace and returns the oracle's response for its
position. -/
def requests_post (o : Oracle) (tr : List Request) (url : String)
    (data : List (String × FormValue)) (headers : List (String × String)) :
    Response × List Request :=
  (o tr.length, tr ++ [{ url := url, data := data, headers := headers }])

/-- The one exception kind the module raises and catches: Python
`AttributeError`, carrying its message string (what `str(e)` yields). -/
inductive PyExc where
  | attributeError (msg : String)
deriving DecidableEq

/-- Message of the `AttributeError` the Python interpreter raises for
`None.status_code` (the exact CPython text carries quotes around NoneType
and status_code). -/
def noneTypeStatusMsg : String :=
  "NoneType object has no attribute status_code"

/-- `_login(accesstoken, url)`: form-encoded POST of the access token; a
non-200 response raises `AttributeError(req.text)`; on 200 returns
`json.loads(req.text)["token"]`. -/
def _login (o : Oracle) (tr : List Request) (accesstoken : String)
    (url : String) : Except PyExc String × List Request :=
  let data := [("accessToken", FormValue.str accesstoken)]
  match requests_post o tr url data [] with
  | (req, tr) =>
    if req.status_code ≠ 200 then
      (Except.error (PyExc.attributeError req.text), tr)
    else
      (Except.ok req.token, tr)

/-- `_eventpush(name, token, url)`: form-encoded POST of the event fields
with the session token in the HTTPAuthorization header; a 409 or 200
response yields `(None, response["id"])`, anything else `(req, None)`. -/
def _eventpush (o : Oracle) (tr : List Request) (name : String)
    (token : String) (url : String) :
    (Option Response × Option Int) × List Request :=
  let data := [("name", FormValue.str name),
               ("description", FormValue.str ""),
               ("type", FormValue.str ""),
               ("source", FormValue.str "SaltStack")]
  let headers := [("HTTPAuthorization", token)]
  match requests_post o tr url data headers with
  | (req, tr) =>
    if req.status_code = 409 ∨ req.status_code = 200 then
      ((none, some req.id), tr)
    else
      ((some req, none), tr)

/-- `_eventdatapush(message, timestamp, token, url)`: form-encoded POST of
the message, timestamp and fixed subject with the session token in the
header; a non-200 response is returned, a 200 yields `None`. -/
def _eventdatapush (o : Oracle) (tr : List Request) (message : String)
    (timestamp : Int) (token : String) (url : String) :
    Option Response × List Request :=
  let data := [("message", FormValue.str message),
               ("timestamp", FormValue.int timestamp),
               ("subject", FormValue.str "a")]
  let headers := [("HTTPAuthorization", token)]
  match requests_post o tr url data headers with
  | (req, tr) =>
    if req.status_code ≠ 200 then (some req, tr) else (none, tr)

/-- The salt state return record built by `event()`.  The Python except
path assigns the caught exception object to `comment`; its `str()` is the
exception's message, and `comment` here holds that string. -/
structure Ret where
  name : String
  changes : List (String × String)
  result : Bool
  comment : String
deriving DecidableEq

/-- Python `str()` of the `event_id` variable, which is an int or `None`
(`str(None) = "None"`). -/
def pyStr : Option Int → String
  | none => "None"
  | some i => toString i

/-- Lines 141-151 of `event()`: build the data url from the obtained event
id, push the event data; if that returned a response with status 401,
re-login and retry the push once; then run the
`err.status_code not in [401, None]` check — which raises
`AttributeError` when `err` is `None` — and either return the failure
record with the body text or fall through to the success record. -/
def push_step (o : Oracle) (tr : List Request)
    (baseurl accesstoken event_name event_message : String) (timestamp : Int)
    (token : String) (event_id : Option Int) (ret : Ret) :
    Except PyExc Ret × List Request :=
  let url := baseurl ++ "events/" ++ pyStr event_id ++ "/data/"
  match _eventdatapush o tr event_message timestamp token url with
  | (err, tr) =>
    match err with
    | none =>
      (Except.ok { ret with result := true,
                            comment := "Sent event: " ++ event_name }, tr)
    | some r =>
      if r.status_code = 401 then
        match _login o tr accesstoken (baseurl ++ "login/") with
        | (Except.error e, tr) => (Except.error e, tr)
        | (Except.ok token2, tr) =>
          match _eventdatapush o tr event_message timestamp token2 url with
          | (err2, tr) =>
            match err2 with
            | none =>
              (Except.error (PyExc.attributeError noneTypeStatusMsg), tr)
            | some r2 =>
              if r2.status_code ≠ 401 then
                (Except.ok { ret with comment := r2.text }, tr)
              else
                (Except.ok { ret with result := true,
                                      comment := "Sent event: " ++ event_name }, tr)
      else
        if r.status_code ≠ 401 then
          (Except.ok { ret with comment := r.text }, tr)
        else
          (Except.ok { ret with result := true,
                                comment := "Sent event: " ++ event_name }, tr)

/-- Lines 132-151 of `event()`: the body of the `try` block.  Login, then
create the event; if that returned a response with status 401, re-login
and retry the create once; then run the
`err.status_code not in [401, None]` check — which raises
`AttributeError` when `err` is `None` — and either return the failure
record or continue to the push step. -/
def event_try (o : Oracle) (baseurl accesstoken event_name event_message : String)
    (timestamp : Int) (ret : Ret) : Except PyExc Ret × List Request :=
  match _login o [] accesstoken (baseurl ++ "login/") with
  | (Except.error e, tr) => (Except.error e, tr)
  | (Except.ok token, tr) =>
    match _eventpush o tr event_name token (baseurl ++ "events/") with
    | ((err, event_id), tr) =>
      match err with
      | none =>
        push_step o tr baseurl accesstoken event_name event_message timestamp
          token event_id ret
      | some r =>
        if r.status_code = 401 then
          match _login o tr accesstoken (baseurl ++ "login/") with
          | (Except.error e, tr) => (Except.error e, tr)
          | (Except.ok token2, tr) =>
            match _eventpush o tr event_name token2 (baseurl ++ "events/") with
            | ((err2, event_id2), tr) =>
              match err2 with
              | none =>
                (Except.error (PyExc.attributeError noneTypeStatusMsg), tr)
              | some r2 =>
                if r2.status_code ≠ 401 then
                  (Except.ok { ret with comment := r2.text }, tr)
                else
                  push_step o tr baseurl accesstoken event_name event_message
                    timestamp token2 event_id2 ret
        else
          if r.status_code ≠ 401 then
            (Except.ok { ret with comment := r.text }, tr)
          else
            push_step o tr baseurl accesstoken event_name event_message
              timestamp token event_id ret

/-- `event(baseurl, accesstoken, appid, event_name, event_message,
timestamp)`: initialises the return record, extends the base url with
`api/v1/app/<appid>/`, runs the try block and catches `AttributeError`
into the record's comment.  Returns the record together with the trace of
HTTP requests issued. -/
def event (o : Oracle) (baseurl accesstoken appid event_name event_message : String)
    (timestamp : Int) : Ret × List Request :=
  let ret : Ret := { name := event_name, changes := [], result := false,
                     comment := "" }
  let baseurl := baseurl ++ "api/v1/app/" ++ appid ++ "/"
  match event_try o baseurl accesstoken event_name event_message timestamp ret with
  | (Except.ok r, tr) => (r, tr)
  | (Except.error (PyExc.attributeError msg), tr) =>
    ({ ret with comment := msg }, tr)

/-- `event()` invoked with the optional `timestamp` argument omitted: the
Python default is `0`. -/
def event_default (o : Oracle)
    (baseurl accesstoken appid event_name event_message : String) :
    Ret × List Request :=
  event o baseurl accesstoken appid event_name event_message 0

/-- Result of the `try` block as the `except AttributeError` handler turns
it into the returned record: an ok value is returned as is, a caught
exception puts its message into the comment of the initial record. -/
def outcomeResult : Except PyExc Ret → Bool
  | Except.ok r => r.result
  | Except.error _ => false

/-- Status-level success condition of the create step, written from the
observable statuses alone: position of the first data-push request when
the create step falls through, `none` when `event()` returns a failure
record or the handler catches an exception during that step.  The create
step falls through exactly when the first create response is 409 or 200,
or it is 401, the re-login succeeds and the retried create is again 401. -/
def createStepNext (s : Nat → Nat) : Option Nat :=
  if s 1 = 409 ∨ s 1 = 200 then some 2
  else if s 1 = 401 ∧ s 2 = 200 ∧ s 3 = 401 then some 4
  else none

/-- Status-level success condition of the push step whose first request
sits at position `p`: the push returns 200, or it returns 401, the
re-login succeeds and the retried push is again 401 (the 401-then-401
fall-through of the source). -/
def pushStepOk (s : Nat → Nat) (p : Nat) : Prop :=
  s p = 200 ∨ (s p = 401 ∧ s (p + 1) = 200 ∧ s (p + 2) = 401)

/-- Exactly when `event()` returns `result=true`, as a condition on the
response statuses alone: the login succeeds, the create step falls
through, and the push step starting at the resulting position succeeds. -/
def EventSuccessSpec (s : Nat → Nat) : Prop :=
  s 0 = 200 ∧ ∃ p, createStepNext s = some p ∧ pushStepOk s p

/-- The request `_login` issues: form-encoded access token, no headers. -/
def loginRequest (a url : String) : Request :=
  { url := url, data := [("accessToken", FormValue.str a)], headers := [] }

/-- The request `_eventpush` issues: event fields in the body, session
token in the HTTPAuthorization header. -/
def createRequest (n tok url : String) : Request :=
  { url := url,
    data := [("name", FormValue.str n), ("description", FormValue.str ""),
             ("type", FormValue.str ""), ("source", FormValue.str "SaltStack")],
    headers := [("HTTPAuthorization", tok)] }

/-- The request `_eventdatapush` issues: message, timestamp and fixed
subject in the body, session token in the HTTPAuthorization header. -/
def pushRequest (m : String) (ts : Int) (tok url : String) : Request :=
  { url := url,
    data := [("message", FormValue.str m), ("timestamp", FormValue.int ts),
             ("subject", FormValue.str "a")],
    headers := [("HTTPAuthorization", tok)] }

/-- Shorthand for building a concrete response. -/
def mkResponse (s : Nat) (t tok : String) (i : Int) : Response :=
  { status_code := s, text := t, token := tok, id := i }

/-- Scenario: every request is answered 403 with body `bad token`. -/
def oLoginFail : Oracle := fun _ => mkResponse 403 "bad token" "" 0

/-- Scenario: login 200 (token t1), create 200 (id 7), everything else
200. -/
def oHappy : Oracle := fun i =>
  match i with
  | 0 => mkResponse 200 "" "t1" 0
  | 1 => mkResponse 200 "" "" 7
  | _ => mkResponse 200 "" "" 0

/-- Scenario: login 200, create 401, re-login 200 (token t2), retried
create 200 with id 7. -/
def oCreate401Then200 : Oracle := fun i =>
  match i with
  | 0 => mkResponse 200 "" "t1" 0
  | 1 => mkResponse 401 "expired" "" 0
  | 2 => mkResponse 200 "" "t2" 0
  | _ => mkResponse 200 "" "" 7

/-- Scenario: login 200, create 401, re-login 200, retried create again
401, then 200 for the rest. -/
def oCreate401Twice : Oracle := fun i =>
  match i with
  | 0 => mkResponse 200 "" "t1" 0
  | 1 => mkResponse 401 "expired" "" 0
  | 2 => mkResponse 200 "" "t2" 0
  | 3 => mkResponse 401 "expired again" "" 0
  | _ => mkResponse 200 "" "" 0

/-- Scenario: login 200, create 200 (id 7), push 401, re-login 200 (token
t2), retried push again 401. -/
def oPush401Twice : Oracle := fun i =>
  match i with
  | 0 => mkResponse 200 "" "t1" 0
  | 1 => mkResponse 200 "" "" 7
  | 2 => mkResponse 401 "expired" "" 0
  | 3 => mkResponse 200 "" "t2" 0
  | _ => mkResponse 401 "expired again" "" 0

/-- Scenario: login 200, create 200 (id 7), push 500 with body
`server error`. -/
def oPush500 : Oracle := fun i =>
  match i with
  | 0 => mkResponse 200 "" "t1" 0
  | 1 => mkResponse 200 "" "" 7
  | _ => mkResponse 500 "server error" "" 0

/-- Scenario: login 200, create 200 (id 7), push 401, re-login 200 (token
t2), retried push 500. -/
def oPush401Then500 : Oracle := fun i =>
  match i with
  | 0 => mkResponse 200 "" "t1" 0
  | 1 => mkResponse 200 "" "" 7
  | 2 => mkResponse 401 "expired" "" 0
  | 3 => mkResponse 200 "" "t2" 0
  | _ => mkResponse 500 "server error" "" 0

/-- Scenario: login 200, create 409 with body carrying id 7, everything
else 200. -/
def oCreate409 : Oracle := fun i =>
  match i with
  | 0 => mkResponse 200 "" "t1" 0
  | 1 => mkResponse 409 "duplicate" "" 7
  | _ => mkResponse 200 "" "" 0

/-- Whatever the oracle answers, the trace of `push_step` extends the
incoming trace with the data-push request first: the push url is built
from the event id, the payload carries the message, the timestamp and the
fixed subject, and the header carries the session token `push_step` was
given. -/
theorem push_step_trace (o : Oracle) (tr : List Request) (b a n m : String)
    (ts : Int) (tok : String) (eid : Option Int) (ret : Ret) :
    ∃ rest, (push_step o tr b a n m ts tok eid ret).2 =
      tr ++ pushRequest m ts tok (b ++ "events/" ++ pyStr eid ++ "/data/") :: rest := by
  unfold push_step _eventdatapush _login requests_post
  by_cases h1 : (o tr.length).status_code = 200
  · exact ⟨[], by simp [h1, pushRequest]⟩
  · by_cases h1b : (o tr.length).status_code = 401
    · by_cases h2 : (o (tr.length + 1)).status_code = 200
      · by_cases h3 : (o (tr.length + 1 + 1)).status_code = 200
        · exact ⟨[loginRequest a (b ++ "login/"),
                  pushRequest m ts (o (tr.length + 1)).token
                    (b ++ "events/" ++ pyStr eid ++ "/data/")],
                 by simp [h1, h1b, h2, h3, pushRequest, loginRequest]⟩
        · by_cases h3b : (o (tr.length + 1 + 1)).status_code = 401
          · exact ⟨[loginRequest a (b ++ "login/"),
                    pushRequest m ts (o (tr.length + 1)).token
                      (b ++ "events/" ++ pyStr eid ++ "/data/")],
                   by simp [h1, h1b, h2, h3, h3b, pushRequest, loginRequest]⟩
          · exact ⟨[loginRequest a (b ++ "login/"),
                    pushRequest m ts (o (tr.length + 1)).token
                      (b ++ "events/" ++ pyStr eid ++ "/data/")],
                   by simp [h1, h1b, h2, h3, h3b, pushRequest, loginRequest]⟩
      · exact ⟨[loginRequest a (b ++ "login/")],
               by simp [h1, h1b, h2, pushRequest, loginRequest]⟩
    · exact ⟨[], by simp [h1, h1b, pushRequest]⟩

/-- The result flag `event()` returns is the outcome of the try block:
the flag of an ok record, `false` for a caught exception (the handler
returns the initial record, whose flag is `false`). -/
theorem event_result_outcome (o : Oracle) (b a app n m : String) (ts : Int) :
    (event o b a app n m ts).1.result =
      outcomeResult (event_try o (b ++ "api/v1/app/" ++ app ++ "/") a n m ts
        { name := n, changes := [], result := false, comment := "" }).1 := by
  rcases hE : event_try o (b ++ "api/v1/app/" ++ app ++ "/") a n m ts
      { name := n, changes := [], result := false, comment := "" } with ⟨e, tr⟩
  rcases e with pe | r
  · rcases pe with ⟨msg⟩
    simp [event, outcomeResult, hE]
  · simp [event, outcomeResult, hE]

/-- The trace `event()` returns is the trace of the try block. -/
theorem event_trace_outcome (o : Oracle) (b a app n m : String) (ts : Int) :
    (event o b a app n m ts).2 =
      (event_try o (b ++ "api/v1/app/" ++ app ++ "/") a n m ts
        { name := n, changes := [], result := false, comment := "" }).2 := by
  rcases hE : event_try o (b ++ "api/v1/app/" ++ app ++ "/") a n m ts
      { name := n, changes := [], result := false, comment := "" } with ⟨e, tr⟩
  rcases e with pe | r
  · rcases pe with ⟨msg⟩
    simp [event, hE]
  · simp [event, hE]

/-- When the login succeeds and the first create response is 409 or 200,
the try block is the push step run after the login and create requests
with the event id of the create response and the login token. -/
theorem event_try_createOk_eq (o : Oracle) (B a n m : String) (ts : Int)
    (ret : Ret) (h0 : (o 0).status_code = 200)
    (h1 : (o 1).status_code = 409 ∨ (o 1).status_code = 200) :
    event_try o B a n m ts ret =
      push_step o
        [loginRequest a (B ++ "login/"),
         createRequest n (o 0).token (B ++ "events/")]
        B a n m ts (o 0).token (some (o 1).id) ret := by
  simp [event_try, _login, _eventpush, requests_post, loginRequest,
        createRequest, h0, h1]

/-- When the login succeeds, the first create response is 401, the
re-login succeeds and the retried create is again 401: the try block
falls through to the push step with event id `none`, the re-login token,
and four requests already issued. -/
theorem event_try_create401_eq (o : Oracle) (B a n m : String) (ts : Int)
    (ret : Ret) (h0 : (o 0).status_code = 200)
    (h1 : (o 1).status_code = 401) (h2 : (o 2).status_code = 200)
    (h3 : (o 3).status_code = 401) :
    event_try o B a n m ts ret =
      push_step o
        [loginRequest a (B ++ "login/"),
         createRequest n (o 0).token (B ++ "events/"),
         loginRequest a (B ++ "login/"),
         createRequest n (o 2).token (B ++ "events/")]
        B a n m ts (o 2).token none ret := by
  have hn1 : ¬((o 1).status_code = 409 ∨ (o 1).status_code = 200) := by
    simp [h1]
  have hn3 : ¬((o 3).status_code = 409 ∨ (o 3).status_code = 200) := by
    simp [h3]
  simp [event_try, _login, _eventpush, requests_post, loginRequest,
        createRequest, h0, h1, h2, h3, hn1, hn3]

/-- When the first data push is answered 401 and the re-login succeeds,
the push step issues exactly three more requests — push, login, retried
push with the refreshed token — whatever the retried push is answered. -/
theorem push_step_trace401 (o : Oracle) (tr : List Request) (b a n m : String)
    (ts : Int) (tok : String) (eid : Option Int) (ret : Ret)
    (h1 : (o tr.length).status_code = 401)
    (h2 : (o (tr.length + 1)).status_code = 200) :
    (push_step o tr b a n m ts tok eid ret).2 =
      tr ++ [pushRequest m ts tok (b ++ "events/" ++ pyStr eid ++ "/data/"),
             loginRequest a (b ++ "login/"),
             pushRequest m ts (o (tr.length + 1)).token
               (b ++ "events/" ++ pyStr eid ++ "/data/")] := by
  by_cases h3 : (o (tr.length + 1 + 1)).status_code = 200
  · simp [push_step, _eventdatapush, _login, requests_post, h1, h2, h3,
          pushRequest, loginRequest]
  · by_cases h3b : (o (tr.length + 1 + 1)).status_code = 401 <;>
      simp [push_step, _eventdatapush, _login, requests_post, h1, h2, h3,
            h3b, pushRequest, loginRequest]

/-- The outcome flag of the push step, characterised by the statuses of
the responses it sees from its first request on: success exactly when the
first push is answered 200, or it is answered 401, the re-login succeeds
and the retried push is again answered 401. -/
theorem push_step_result (o : Oracle) (tr : List Request) (b a n m : String)
    (ts : Int) (tok : String) (eid : Option Int) (ret : Ret)
    (hret : ret.result = false) :
    outcomeResult (push_step o tr b a n m ts tok eid ret).1 = true ↔
      pushStepOk (fun i => (o i).status_code) tr.length := by
  unfold pushStepOk
  by_cases h1 : (o tr.length).status_code = 200
  · simp [push_step, _eventdatapush, _login, requests_post, outcomeResult, h1]
  · by_cases h1b : (o tr.length).status_code = 401
    · by_cases h2 : (o (tr.length + 1)).status_code = 200
      · by_cases h3 : (o (tr.length + 1 + 1)).status_code = 200
        · simp [push_step, _eventdatapush, _login, requests_post,
                outcomeResult, h1, h1b, h2, h3]
        · by_cases h3b : (o (tr.length + 1 + 1)).status_code = 401 <;>
            simp [push_step, _eventdatapush, _login, requests_post,
                  outcomeResult, h1, h1b, h2, h3, h3b, hret]
      · simp [push_step, _eventdatapush, _login, requests_post,
              outcomeResult, h1, h1b, h2]
    · simp [push_step, _eventdatapush, _login, requests_post,
            outcomeResult, h1, h1b, hret]

/-- Every ok record the push step returns keeps the name and changes
fields of the record it was given. -/
theorem push_step_fields (o : Oracle) (tr : List Request) (b a n m : String)
    (ts : Int) (tok : String) (eid : Option Int) (ret : Ret) :
    ∀ r, (push_step o tr b a n m ts tok eid ret).1 = Except.ok r →
      r.name = ret.name ∧ r.changes = ret.changes := by
  intro r h
  by_cases h1 : (o tr.length).status_code = 200
  · simp [push_step, _eventdatapush, _login, requests_post, h1] at h
    subst h
    simp
  · by_cases h1b : (o tr.length).status_code = 401
    · by_cases h2 : (o (tr.length + 1)).status_code = 200
      · by_cases h3 : (o (tr.length + 1 + 1)).status_code = 200
        · simp [push_step, _eventdatapush, _login, requests_post, h1, h1b,
                h2, h3] at h
        · by_cases h3b : (o (tr.length + 1 + 1)).status_code = 401 <;>
          · simp [push_step, _eventdatapush, _login, requests_post, h1, h1b,
                  h2, h3, h3b] at h
            subst h
            simp
      · simp [push_step, _eventdatapush, _login, requests_post, h1, h1b,
              h2] at h
    · simp [push_step, _eventdatapush, _login, requests_post, h1, h1b] at h
      subst h
      simp

/-- Every ok record the try block returns keeps the name and changes
fields of the record it was given. -/
theorem event_try_fields (o : Oracle) (B a n m : String) (ts : Int)
    (ret : Ret) :
    ∀ r, (event_try o B a n m ts ret).1 = Except.ok r →
      r.name = ret.name ∧ r.changes = ret.changes := by
  intro r h
  by_cases h0 : (o 0).status_code = 200
  · by_cases h1 : (o 1).status_code = 409 ∨ (o 1).status_code = 200
    · rw [event_try_createOk_eq o B a n m ts ret h0 h1] at h
      exact push_step_fields _ _ _ _ _ _ _ _ _ _ r h
    · by_cases h1b : (o 1).status_code = 401
      · by_cases h2 : (o 2).status_code = 200
        · by_cases h3 : (o 3).status_code = 409 ∨ (o 3).status_code = 200
          · rcases h3 with h3 | h3 <;>
              simp [event_try, _login, _eventpush, requests_post, h0, h1,
                    h1b, h2, h3] at h
          · by_cases h3b : (o 3).status_code = 401
            · rw [event_try_create401_eq o B a n m ts ret h0 h1b h2 h3b] at h
              exact push_step_fields _ _ _ _ _ _ _ _ _ _ r h
            · simp [event_try, _login, _eventpush, requests_post, h0, h1,
                    h1b, h2, h3, h3b] at h
              subst h
              simp
        · simp [event_try, _login, _eventpush, requests_post, h0, h1, h1b,
                h2] at h
      · simp [event_try, _login, _eventpush, requests_post, h0, h1,
              h1b] at h
        subst h
        simp
  · simp [event_try, _login, requests_post, h0] at h

/-- C1: evaluation at the claim's scenario — login 200, create 401,
re-login 200, retried create 200 with a valid id.  Two login and two
create requests are issued, but instead of continuing to pushEventData,
`err` is `None` after the successful retry, so `err.status_code` raises
`AttributeError`; the handler catches it and `event()` returns
`result=false` with the interpreter's message as comment, and no push
request is ever issued. -/
theorem c1_create_401_then_200_aborts :
    (event oCreate401Then200 "https://api.coscale.com/" "tok" "app" "nm" "msg" 5).1 =
      { name := "nm", changes := [], result := false,
        comment := noneTypeStatusMsg } ∧
    (event oCreate401Then200 "https://api.coscale.com/" "tok" "app" "nm" "msg" 5).2.map
        Request.url =
      ["https://api.coscale.com/api/v1/app/app/login/",
       "https://api.coscale.com/api/v1/app/app/events/",
       "https://api.coscale.com/api/v1/app/app/login/",
       "https://api.coscale.com/api/v1/app/app/events/"] :=
  ⟨rfl, rfl⟩

/-- C2 counterexample: login 200, create 200, push answered 401, re-login
200, retried push again answered 401 — pushEventData never returns 200
(both push calls, requests 2 and 4, get 401), yet `event()` returns
`result=true`. -/
theorem c2_counterexample :
    (oPush401Twice 2).status_code = 401 ∧
    (oPush401Twice 3).status_code = 200 ∧
    (oPush401Twice 4).status_code = 401 ∧
    (event oPush401Twice "b/" "tok" "app" "nm" "msg" 5).2.length = 5 ∧
    (event oPush401Twice "b/" "tok" "app" "nm" "msg" 5).1.result = true :=
  ⟨rfl, rfl, rfl, rfl, rfl⟩

/-- C2 (amended): `event()` returns `result=true` exactly when the login
succeeds, the create step falls through (first create 409/200, or 401
then re-login 200 then again 401), and the push step falls through (push
200, or 401 then re-login 200 then again 401).  In particular a push
answered 401 twice yields `result=true` although the push never
succeeded, and a push answered 401 then 200 yields `result=false`. -/
theorem c2_result_characterization (o : Oracle) (b a app n m : String)
    (ts : Int) :
    (event o b a app n m ts).1.result = true ↔
      EventSuccessSpec (fun i => (o i).status_code) := by
  rw [event_result_outcome o b a app n m ts]
  by_cases h0 : (o 0).status_code = 200
  · by_cases h1 : (o 1).status_code = 409 ∨ (o 1).status_code = 200
    · rw [event_try_createOk_eq o (b ++ "api/v1/app/" ++ app ++ "/") a n m ts
            { name := n, changes := [], result := false, comment := "" } h0 h1,
          push_step_result o
            [loginRequest a ((b ++ "api/v1/app/" ++ app ++ "/") ++ "login/"),
             createRequest n (o 0).token
               ((b ++ "api/v1/app/" ++ app ++ "/") ++ "events/")]
            (b ++ "api/v1/app/" ++ app ++ "/") a n m ts (o 0).token
            (some (o 1).id)
            { name := n, changes := [], result := false, comment := "" } rfl]
      simp [EventSuccessSpec, createStepNext, h0, h1]
    · by_cases h1b : (o 1).status_code = 401
      · by_cases h2 : (o 2).status_code = 200
        · by_cases h3 : (o 3).status_code = 409 ∨ (o 3).status_code = 200
          · rcases h3 with h3 | h3 <;>
              simp [event_try, _login, _eventpush, requests_post,
                    outcomeResult, EventSuccessSpec, createStepNext, h0, h1,
                    h1b, h2, h3]
          · by_cases h3b : (o 3).status_code = 401
            · rw [event_try_create401_eq o (b ++ "api/v1/app/" ++ app ++ "/")
                    a n m ts
                    { name := n, changes := [], result := false, comment := "" }
                    h0 h1b h2 h3b,
                  push_step_result o
                    [loginRequest a ((b ++ "api/v1/app/" ++ app ++ "/") ++ "login/"),
                     createRequest n (o 0).token
                       ((b ++ "api/v1/app/" ++ app ++ "/") ++ "events/"),
                     loginRequest a ((b ++ "api/v1/app/" ++ app ++ "/") ++ "login/"),
                     createRequest n (o 2).token
                       ((b ++ "api/v1/app/" ++ app ++ "/") ++ "events/")]
                    (b ++ "api/v1/app/" ++ app ++ "/") a n m ts (o 2).token none
                    { name := n, changes := [], result := false, comment := "" }
                    rfl]
              simp [EventSuccessSpec, createStepNext, h0, h1, h1b, h2, h3b]
            · simp [event_try, _login, _eventpush, requests_post,
                    outcomeResult, EventSuccessSpec, createStepNext, h0, h1,
                    h1b, h2, h3, h3b]
        · simp [event_try, _login, _eventpush, requests_post, outcomeResult,
                EventSuccessSpec, createStepNext, h0, h1, h1b, h2]
      · simp [event_try, _login, _eventpush, requests_post, outcomeResult,
              EventSuccessSpec, createStepNext, h0, h1, h1b]
  · simp [event_try, _login, requests_post, outcomeResult, EventSuccessSpec,
          h0]

/-- C3: a non-200 login response makes `event()` return `result=false`
with the response body as comment, and the login request is the only
request issued. -/
theorem c3_login_failure_returns_body (o : Oracle) (b a app n m : String)
    (ts : Int) (h : (o 0).status_code ≠ 200) :
    (event o b a app n m ts).1 =
      { name := n, changes := [], result := false, comment := (o 0).text } ∧
    (event o b a app n m ts).2 =
      [loginRequest a (b ++ "api/v1/app/" ++ app ++ "/" ++ "login/")] := by
  constructor <;>
    simp [event, event_try, _login, requests_post, loginRequest, h]

/-- C3 witness: the 403/`bad token` scenario. -/
theorem c3_login_failure_witness :
    (event oLoginFail "https://x/" "a" "app" "nm" "msg" 0).1 =
      { name := "nm", changes := [], result := false, comment := "bad token" } ∧
    (event oLoginFail "https://x/" "a" "app" "nm" "msg" 0).2 =
      [loginRequest "a" "https://x/api/v1/app/app/login/"] :=
  c3_login_failure_returns_body oLoginFail "https://x/" "a" "app" "nm" "msg" 0
    (by decide)

/-- C4: a 409 create response is treated as success — `_eventpush`
returns `(None, id)` with the id of the 409 body, and `event()` proceeds
to the data push whose url carries that id. -/
theorem c4_create_409_is_success (o : Oracle) (b a app n m : String)
    (ts : Int) (h0 : (o 0).status_code = 200)
    (h1 : (o 1).status_code = 409) :
    (_eventpush o [loginRequest a (b ++ "api/v1/app/" ++ app ++ "/" ++ "login/")]
        n (o 0).token (b ++ "api/v1/app/" ++ app ++ "/" ++ "events/")).1 =
      (none, some (o 1).id) ∧
    (event o b a app n m ts).2[2]? =
      some (pushRequest m ts (o 0).token
        (b ++ "api/v1/app/" ++ app ++ "/" ++ "events/" ++
          pyStr (some (o 1).id) ++ "/data/")) := by
  constructor
  · simp [_eventpush, requests_post, loginRequest, h1]
  · rw [event_trace_outcome o b a app n m ts,
        event_try_createOk_eq o (b ++ "api/v1/app/" ++ app ++ "/") a n m ts
          { name := n, changes := [], result := false, comment := "" } h0
          (Or.inl h1)]
    obtain ⟨rest, hrest⟩ := push_step_trace o
      [loginRequest a ((b ++ "api/v1/app/" ++ app ++ "/") ++ "login/"),
       createRequest n (o 0).token
         ((b ++ "api/v1/app/" ++ app ++ "/") ++ "events/")]
      (b ++ "api/v1/app/" ++ app ++ "/") a n m ts (o 0).token (some (o 1).id)
      { name := n, changes := [], result := false, comment := "" }
    rw [hrest]
    simp

/-- C4 witness: the 409-with-id-7 scenario. -/
theorem c4_create_409_witness :
    (_eventpush oCreate409 [loginRequest "a" "b/api/v1/app/app/login/"] "nm"
        "t1" "b/api/v1/app/app/events/").1 = (none, some 7) ∧
    (event oCreate409 "b/" "a" "app" "nm" "msg" 7).2[2]? =
      some (pushRequest "msg" 7 "t1" "b/api/v1/app/app/events/7/data/") :=
  c4_create_409_is_success oCreate409 "b/" "a" "app" "nm" "msg" 7 (by decide)
    (by decide)

/-- C5: when the login and the create succeed and the data push is
answered with a status that is neither 200 nor 401, `event()` returns
`result=false` with that response's body as comment, after exactly three
requests. -/
theorem c5_push_error_fails (o : Oracle) (b a app n m : String) (ts : Int)
    (h0 : (o 0).status_code = 200)
    (h1 : (o 1).status_code = 409 ∨ (o 1).status_code = 200)
    (h2a : (o 2).status_code ≠ 200) (h2b : (o 2).status_code ≠ 401) :
    (event o b a app n m ts).1 =
      { name := n, changes := [], result := false, comment := (o 2).text } ∧
    (event o b a app n m ts).2.length = 3 := by
  constructor <;>
    simp [event, event_try, push_step, _login, _eventpush, _eventdatapush,
          requests_post, h0, h1, h2a, h2b]

/-- C5 witness: the push-500 scenario. -/
theorem c5_push_error_witness :
    (event oPush500 "b/" "a" "app" "nm" "msg" 9).1 =
      { name := "nm", changes := [], result := false,
        comment := "server error" } ∧
    (event oPush500 "b/" "a" "app" "nm" "msg" 9).2.length = 3 :=
  c5_push_error_fails oPush500 "b/" "a" "app" "nm" "msg" 9 (by decide)
    (by decide) (by decide) (by decide)

/-- C6: when the timestamp argument is omitted (Python default 0), the
data-push request's form payload carries `timestamp = 0`. -/
theorem c6_default_timestamp_zero (o : Oracle) (b a app n m : String)
    (h0 : (o 0).status_code = 200) (h1 : (o 1).status_code = 200) :
    (event_default o b a app n m).2[2]? =
      some (pushRequest m 0 (o 0).token
        (b ++ "api/v1/app/" ++ app ++ "/" ++ "events/" ++
          pyStr (some (o 1).id) ++ "/data/")) ∧
    (pushRequest m 0 (o 0).token
        (b ++ "api/v1/app/" ++ app ++ "/" ++ "events/" ++
          pyStr (some (o 1).id) ++ "/data/")).data =
      [("message", FormValue.str m), ("timestamp", FormValue.int 0),
       ("subject", FormValue.str "a")] := by
  constructor
  · rw [show event_default o b a app n m = event o b a app n m 0 from rfl,
        event_trace_outcome o b a app n m 0,
        event_try_createOk_eq o (b ++ "api/v1/app/" ++ app ++ "/") a n m 0
          { name := n, changes := [], result := false, comment := "" } h0
          (Or.inr h1)]
    obtain ⟨rest, hrest⟩ := push_step_trace o
      [loginRequest a ((b ++ "api/v1/app/" ++ app ++ "/") ++ "login/"),
       createRequest n (o 0).token
         ((b ++ "api/v1/app/" ++ app ++ "/") ++ "events/")]
      (b ++ "api/v1/app/" ++ app ++ "/") a n m 0 (o 0).token (some (o 1).id)
      { name := n, changes := [], result := false, comment := "" }
    rw [hrest]
    simp
  · rfl

/-- C6 witness: the all-200 scenario with the timestamp omitted. -/
theorem c6_default_timestamp_witness :
    (event_default oHappy "b/" "a" "app" "nm" "msg").2[2]? =
      some (pushRequest "msg" 0 "t1" "b/api/v1/app/app/events/7/data/") ∧
    (pushRequest "msg" 0 "t1" "b/api/v1/app/app/events/7/data/").data =
      [("message", FormValue.str "msg"), ("timestamp", FormValue.int 0),
       ("subject", FormValue.str "a")] :=
  c6_default_timestamp_zero oHappy "b/" "a" "app" "nm" "msg" (by decide)
    (by decide)

/-- C7: the base url of the exchange is
`baseurl ++ "api/v1/app/" ++ appid ++ "/"`, and the three requests go to
that base extended with `login/`, `events/`, and
`events/<id>/data/` respectively. -/
theorem c7_url_structure (o : Oracle) (b a app n m : String) (ts : Int)
    (h0 : (o 0).status_code = 200) (h1 : (o 1).status_code = 200) :
    (event o b a app n m ts).2[0]? =
      some (loginRequest a (b ++ "api/v1/app/" ++ app ++ "/" ++ "login/")) ∧
    (event o b a app n m ts).2[1]? =
      some (createRequest n (o 0).token
        (b ++ "api/v1/app/" ++ app ++ "/" ++ "events/")) ∧
    (event o b a app n m ts).2[2]? =
      some (pushRequest m ts (o 0).token
        (b ++ "api/v1/app/" ++ app ++ "/" ++ "events/" ++
          pyStr (some (o 1).id) ++ "/data/")) := by
  rw [event_trace_outcome o b a app n m ts,
      event_try_createOk_eq o (b ++ "api/v1/app/" ++ app ++ "/") a n m ts
        { name := n, changes := [], result := false, comment := "" } h0
        (Or.inr h1)]
  obtain ⟨rest, hrest⟩ := push_step_trace o
    [loginRequest a ((b ++ "api/v1/app/" ++ app ++ "/") ++ "login/"),
     createRequest n (o 0).token
       ((b ++ "api/v1/app/" ++ app ++ "/") ++ "events/")]
    (b ++ "api/v1/app/" ++ app ++ "/") a n m ts (o 0).token (some (o 1).id)
    { name := n, changes := [], result := false, comment := "" }
  rw [hrest]
  refine ⟨?_, ?_, ?_⟩ <;> simp

/-- C7 witness: the all-200 scenario. -/
theorem c7_url_structure_witness :
    (event oHappy "b/" "a" "app" "nm" "msg" 5).2[0]? =
      some (loginRequest "a" "b/api/v1/app/app/login/") ∧
    (event oHappy "b/" "a" "app" "nm" "msg" 5).2[1]? =
      some (createRequest "nm" "t1" "b/api/v1/app/app/events/") ∧
    (event oHappy "b/" "a" "app" "nm" "msg" 5).2[2]? =
      some (pushRequest "msg" 5 "t1" "b/api/v1/app/app/events/7/data/") :=
  c7_url_structure oHappy "b/" "a" "app" "nm" "msg" 5 (by decide) (by decide)

/-- C8: when the first data push is answered 401 and the re-login
succeeds, `event()` issues exactly five requests — one more login and one
retried push carrying the refreshed token at the same url — whatever the
retried push is answered: no further retry occurs. -/
theorem c8_push_401_single_retry (o : Oracle) (b a app n m : String)
    (ts : Int) (h0 : (o 0).status_code = 200) (h1 : (o 1).status_code = 200)
    (h2 : (o 2).status_code = 401) (h3 : (o 3).status_code = 200) :
    (event o b a app n m ts).2 =
      [loginRequest a (b ++ "api/v1/app/" ++ app ++ "/" ++ "login/"),
       createRequest n (o 0).token
         (b ++ "api/v1/app/" ++ app ++ "/" ++ "events/"),
       pushRequest m ts (o 0).token
         (b ++ "api/v1/app/" ++ app ++ "/" ++ "events/" ++
           pyStr (some (o 1).id) ++ "/data/"),
       loginRequest a (b ++ "api/v1/app/" ++ app ++ "/" ++ "login/"),
       pushRequest m ts (o 3).token
         (b ++ "api/v1/app/" ++ app ++ "/" ++ "events/" ++
           pyStr (some (o 1).id) ++ "/data/")] := by
  rw [event_trace_outcome o b a app n m ts,
      event_try_createOk_eq o (b ++ "api/v1/app/" ++ app ++ "/") a n m ts
        { name := n, changes := [], result := false, comment := "" } h0
        (Or.inr h1),
      push_step_trace401 o
        [loginRequest a ((b ++ "api/v1/app/" ++ app ++ "/") ++ "login/"),
         createRequest n (o 0).token
           ((b ++ "api/v1/app/" ++ app ++ "/") ++ "events/")]
        (b ++ "api/v1/app/" ++ app ++ "/") a n m ts (o 0).token
        (some (o 1).id)
        { name := n, changes := [], result := false, comment := "" } h2 h3]
  simp

/-- C8 witness: push 401, re-login 200, retried push 500 — still exactly
five requests. -/
theorem c8_push_401_witness :
    (event oPush401Then500 "b/" "a" "app" "nm" "msg" 5).2 =
      [loginRequest "a" "b/api/v1/app/app/login/",
       createRequest "nm" "t1" "b/api/v1/app/app/events/",
       pushRequest "msg" 5 "t1" "b/api/v1/app/app/events/7/data/",
       loginRequest "a" "b/api/v1/app/app/login/",
       pushRequest "msg" 5 "t2" "b/api/v1/app/app/events/7/data/"] :=
  c8_push_401_single_retry oPush401Then500 "b/" "a" "app" "nm" "msg" 5
    (by decide) (by decide) (by decide) (by decide)

/-- C9: when the create is answered 401 twice (with a successful
re-login), `event()` does not fail at the create step: `event_id` stays
`None` and the fifth request is the data push against
`.../events/None/data/` (since `str(None) = "None"`), carrying the
re-login token. -/
theorem c9_create_double_401_pushes_none (o : Oracle) (b a app n m : String)
    (ts : Int) (h0 : (o 0).status_code = 200) (h1 : (o 1).status_code = 401)
    (h2 : (o 2).status_code = 200) (h3 : (o 3).status_code = 401) :
    (event o b a app n m ts).2[4]? =
      some (pushRequest m ts (o 2).token
        (b ++ "api/v1/app/" ++ app ++ "/" ++ "events/" ++ pyStr none ++
          "/data/")) ∧
    pyStr none = "None" := by
  constructor
  · rw [event_trace_outcome o b a app n m ts,
        event_try_create401_eq o (b ++ "api/v1/app/" ++ app ++ "/") a n m ts
          { name := n, changes := [], result := false, comment := "" } h0 h1
          h2 h3]
    obtain ⟨rest, hrest⟩ := push_step_trace o
      [loginRequest a ((b ++ "api/v1/app/" ++ app ++ "/") ++ "login/"),
       createRequest n (o 0).token
         ((b ++ "api/v1/app/" ++ app ++ "/") ++ "events/"),
       loginRequest a ((b ++ "api/v1/app/" ++ app ++ "/") ++ "login/"),
       createRequest n (o 2).token
         ((b ++ "api/v1/app/" ++ app ++ "/") ++ "events/")]
      (b ++ "api/v1/app/" ++ app ++ "/") a n m ts (o 2).token none
      { name := n, changes := [], result := false, comment := "" }
    rw [hrest]
    simp
  · rfl

/-- C9 witness: the double-401 create scenario. -/
theorem c9_create_double_401_witness :
    (event oCreate401Twice "b/" "a" "app" "nm" "msg" 5).2[4]? =
      some (pushRequest "msg" 5 "t2" "b/api/v1/app/app/events/None/data/") ∧
    pyStr none = "None" :=
  c9_create_double_401_pushes_none oCreate401Twice "b/" "a" "app" "nm" "msg" 5
    (by decide) (by decide) (by decide) (by decide)

/-- C10: on every return path — success, handled error, and the
caught-exception path — the record `event()` returns keeps
`name = event_name` and `changes = {}`. -/
theorem c10_name_changes_invariant (o : Oracle) (b a app n m : String)
    (ts : Int) :
    (event o b a app n m ts).1.name = n ∧
    (event o b a app n m ts).1.changes = [] := by
  rcases hE : event_try o (b ++ "api/v1/app/" ++ app ++ "/") a n m ts
      { name := n, changes := [], result := false, comment := "" } with ⟨e, tr⟩
  rcases e with pe | r
  · rcases pe with ⟨msg⟩
    constructor <;> simp [event, hE]
  · have hf := event_try_fields o (b ++ "api/v1/app/" ++ app ++ "/") a n m ts
      { name := n, changes := [], result := false, comment := "" } r
      (by rw [hE])
    constructor
    · have h1 := hf.1
      simpa [event, hE] using h1
    · have h2 := hf.2
      simpa [event, hE] using h2

end Coscale
